import Mathlib

/-!
Verification of the upload / sanitize / retention pipeline of the
Google-Search-Music-Player web application.

The embedding follows the server source (src/unnamed/part_000, the current
variant; src/unnamed/part_001 is an earlier variant of the same server) and
the browser-side validator (src/public/scripts.js).  File-system effects are
modelled by an explicit association list from paths to file contents; the
behaviour of the external libraries (music-metadata parsing, node-id3 tag
removal, the multer size limit) is abstracted into boolean fields or, where
noted, modelled from the specification.
-/

namespace MusicPlayer

/-- Abstract content of a file on storage.  The leading bytes are concrete
(the magic-number check inspects them); whether the metadata stream parses
(mm.parseFile succeeds) and whether embedded ID3 tags are present are
abstract booleans, because the parsing library is an external dependency. -/
structure Content where
  firstBytes : List Nat
  wellFormed : Bool
  hasTags : Bool
deriving DecidableEq

/-- The uploads directory modelled as an association list from paths to
contents; earlier entries shadow later ones on lookup. -/
abbrev Disk := List (String × Content)

/-- Look a path up on the disk. -/
def diskLookup (d : Disk) (p : String) : Option Content :=
  match d with
  | [] => none
  | (q, c) :: rest => if q = p then some c else diskLookup rest p

/-- Remove every entry at a path, modelling fs.unlink. -/
def diskErase (d : Disk) (p : String) : Disk :=
  match d with
  | [] => []
  | (q, c) :: rest => if q = p then diskErase rest p else (q, c) :: diskErase rest p

/-- Rewrite the content stored at an existing path in place, modelling
NodeID3.removeTags rewriting the file; a path with no entry is unchanged. -/
def diskUpdate (d : Disk) (p : String) (c : Content) : Disk :=
  match d with
  | [] => []
  | (q, c0) :: rest =>
      if q = p then (q, c) :: diskUpdate rest p c else (q, c0) :: diskUpdate rest p c

/-- Process-wide server state: the retention-slot variable currentFilePath
(part_000 line 68, initialized to null) and the uploads directory. -/
structure ServerState where
  currentFilePath : Option String
  disk : Disk
deriving DecidableEq

/-- The fixed ID3 tag-header signature 49 44 33 compared against the first
3 bytes (part_000 line 133: data.toString of bytes 0..3 equals 494433). -/
def id3Signature : List Nat := [0x49, 0x44, 0x33]

/-- Path of a staged file inside the uploads directory
(path.join of cwd, uploads and the generated filename; cwd is elided). -/
def uploadsPath (fname : String) : String := "uploads/" ++ fname

/-- Public URL returned to the client on success (part_000 line 84). -/
def publicPath (fname : String) : String := "/uploads/" ++ fname

/-- Outcome of one call to checkMagicNumber, recording whether and how the
continuation passed to it was invoked. -/
inductive MagicResult
  | invokedTrue
  | noCallback
  | uncaughtErr
deriving DecidableEq

/-- Embedding of checkMagicNumber (part_000 lines 130-140).  The input is
the result of fs.readFile: some content on success, none when the read
reports an error.  On success the continuation is invoked, with true only,
exactly when the first 3 bytes equal the signature; the if statement has no
else branch, so on a mismatch the continuation is never invoked.  On a read
error, data is undefined and data.toString throws inside the asynchronous
callback; the surrounding try/catch wraps only the synchronous readFile
call, so the exception is uncaught (part_001 lines 113-120 even rethrow the
error with an explicit throw); no continuation runs in that case either. -/
def checkMagicNumber (read : Option Content) : MagicResult :=
  match read with
  | none => MagicResult.uncaughtErr
  | some c =>
      if c.firstBytes.take 3 = id3Signature then MagicResult.invokedTrue
      else MagicResult.noCallback

/-- Outcome of one call to parseMP3Metadata (part_000 lines 119-128). -/
inductive ParseResult
  | invokedTrue (sanitized : Content)
  | deletedNoCallback
deriving DecidableEq

/-- Embedding of parseMP3Metadata (part_000 lines 119-128).  When
mm.parseFile succeeds (the content is well formed), NodeID3.removeTags
strips the embedded tags in place and the continuation is invoked with
true.  When parsing throws, the catch block deletes the staged file and
logs; the continuation is never invoked, so the caller observes nothing. -/
def parseMP3Metadata (c : Content) : ParseResult :=
  if c.wellFormed then ParseResult.invokedTrue { c with hasTags := false }
  else ParseResult.deletedNoCallback

/-- HTTP response of the upload handler.  The err500 constructor mirrors
the res.status(500) branch at part_000 line 86; as proved below it is
unreachable, because parseMP3Metadata never invokes its continuation with a
value other than true. -/
inductive Response
  | okJson (filePath : String)
  | err500
deriving DecidableEq

/-- Result of one run of the upload handler: the new server state, the HTTP
response sent (none when no res call is ever reached), and whether an
exception escaped uncaught from an asynchronous callback. -/
structure HandlerResult where
  state : ServerState
  response : Option Response
  uncaughtExn : Bool
deriving DecidableEq

/-- Eager deletion of the previously published file (part_000 lines 74-76):
if currentFilePath is set, deleteFile removes it from the uploads
directory; this happens before the magic-number check runs. -/
def eraseCurrent (st : ServerState) : Disk :=
  match st.currentFilePath with
  | some p => diskErase st.disk p
  | none => st.disk

/-- Embedding of the upload handler app.post of part_000 lines 71-93, with
the staged file already written by multer and read giving the result of
fs.readFile on it.  Lines 74-76 delete the previously published file, when
one exists, before the magic-number check runs.  The else branch at line 90
(deleteFile of the staged file on a signature mismatch) is unreachable,
because checkMagicNumber never invokes its continuation on a mismatch;
likewise the 500 response at line 86 is unreachable, because
parseMP3Metadata never invokes its continuation on failure. -/
def uploadHandler (st : ServerState) (fname : String) (read : Option Content) :
    HandlerResult :=
  let filePath := uploadsPath fname
  let disk1 := eraseCurrent st
  match checkMagicNumber read with
  | MagicResult.uncaughtErr =>
      ⟨⟨st.currentFilePath, disk1⟩, none, true⟩
  | MagicResult.noCallback =>
      ⟨⟨st.currentFilePath, disk1⟩, none, false⟩
  | MagicResult.invokedTrue =>
      match read with
      | some c =>
          (match parseMP3Metadata c with
           | ParseResult.invokedTrue c2 =>
               ⟨⟨some filePath, diskUpdate disk1 filePath c2⟩,
                 some (Response.okJson (publicPath fname)), false⟩
           | ParseResult.deletedNoCallback =>
               ⟨⟨st.currentFilePath, diskErase disk1 filePath⟩, none, false⟩)
      | none =>
          ⟨⟨st.currentFilePath, disk1⟩, none, false⟩

/-- Metadata of one multipart upload as multer presents it. -/
structure MulterFile where
  fieldname : String
  originalname : String
  mimetype : String
  size : Nat
deriving DecidableEq

/-- Embedding of the multer fileFilter (part_000 lines 56-62): the only
server-side pre-staging check, accepting exactly the declared MIME type
audio/mpeg; the client-supplied filename is never inspected. -/
def fileFilter (file : MulterFile) : Bool :=
  file.mimetype == "audio/mpeg"

/-- Embedding of the multer diskStorage filename function (part_000 lines
47-50): fieldname, a dash, Date.now(), a dash, a random integer.  The
client-supplied original name is not used. -/
def storageFilename (file : MulterFile) (now rand : Nat) : String :=
  file.fieldname ++ "-" ++ (toString now ++ "-" ++ toString rand)

/-- Modelled from the spec: the enforcement of the multer fileSize limit
happens inside the external multer/busboy dependency, not in this
repository; only the ceiling constant 7000000 appears in the source
(part_000 lines 63-65).  The spec says the byte size must be strictly less
than the fixed ceiling. -/
def multerSizeAccepts (size : Nat) : Bool := size < 7000000

/-- Metadata of a file as the browser File object presents it
(src/public/scripts.js). -/
structure ClientFile where
  name : String
  size : Nat
  mime : String
deriving DecidableEq

/-- Character class of the filename regex in scripts.js line 69:
letters, digits, hyphen, underscore, parentheses, period, space. -/
def allowedNameChar (ch : Char) : Bool :=
  (ch ≥ 'a' && ch ≤ 'z') || (ch ≥ 'A' && ch ≤ 'Z') || (ch ≥ '0' && ch ≤ '9') ||
  ch == '-' || ch == '_' || ch == '(' || ch == ')' || ch == '.' || ch == ' '

/-- The regex of scripts.js line 69: one or more characters of the allowed
class followed by a literal .mp3 at the end of the string.  Because the
period is itself in the class, the regex matches exactly the strings that
end in .mp3 with a nonempty stem made of allowed characters; the check is
phrased over the character list of the string so that it evaluates by
kernel reduction. -/
def regexNameMatches (s : String) : Bool :=
  let cs := s.data
  decide (5 ≤ cs.length) && (cs.drop (cs.length - 4) == ".mp3".data) &&
    ((cs.take (cs.length - 4)).all allowedNameChar)

/-- Embedding of validateFile (scripts.js lines 68-82), the browser-side
check: declared type, then size, then name shape and length, rejecting at
the first failure. -/
def validateFile (f : ClientFile) : Bool :=
  if f.mime != "audio/mpeg" then false
  else if 7000000 ≤ f.size then false
  else if !(regexNameMatches f.name) || 70 < f.name.length then false
  else true

/-- One upload request as the server sees it after multer staged the file:
the generated filename, the uploaded content, and whether the subsequent
fs.readFile of the staged file reports an error. -/
structure Request where
  fname : String
  content : Content
  readFails : Bool
deriving DecidableEq

/-- Multer writes the uploaded bytes to the uploads directory before the
handler body runs. -/
def stageFile (st : ServerState) (r : Request) : ServerState :=
  ⟨st.currentFilePath, (uploadsPath r.fname, r.content) :: st.disk⟩

/-- One full request: staging by multer followed by the handler body. -/
def handleRequest (st : ServerState) (r : Request) : HandlerResult :=
  uploadHandler (stageFile st r) r.fname
    (if r.readFails then none else some r.content)

/-- Run a sequence of upload requests against the server. -/
def runServer (st : ServerState) : List Request → ServerState
  | [] => st
  | r :: rest => runServer (handleRequest st r).state rest

/-- Server state at startup: currentFilePath is null (part_000 line 68) and
the uploads directory is empty. -/
def initialState : ServerState := ⟨none, []⟩

/-- Both server-side content checks that guard the assignment of
currentFilePath: signature match and successful metadata parse. -/
def checksPass (c : Content) : Prop :=
  c.firstBytes.take 3 = id3Signature ∧ c.wellFormed = true

instance (c : Content) : Decidable (checksPass c) := by
  unfold checksPass; infer_instance

/-- Concrete content with the correct ID3 signature, well formed, with
embedded tags. -/
def goodContent : Content := ⟨[0x49, 0x44, 0x33, 0x00], true, true⟩

/-- Concrete content whose first 3 bytes are 00 00 00. -/
def badSigContent : Content := ⟨[0x00, 0x00, 0x00], true, false⟩

/-- Concrete content with the correct signature whose metadata stream does
not parse. -/
def corruptContent : Content := ⟨[0x49, 0x44, 0x33, 0xFF], false, true⟩

example : checkMagicNumber (some goodContent) = MagicResult.invokedTrue := by decide
example : checkMagicNumber (some badSigContent) = MagicResult.noCallback := by decide
example : checkMagicNumber none = MagicResult.uncaughtErr := rfl
example : validateFile ⟨"track-01.mp3", 50, "audio/mpeg"⟩ = true := by decide
example : regexNameMatches "../../etc/passwd.mp3" = false := by decide

/-! Basic facts about the disk model. -/

theorem diskLookup_erase_self (d : Disk) (p : String) :
    diskLookup (diskErase d p) p = none := by
  induction d with
  | nil => rfl
  | cons hd tl ih =>
    obtain ⟨q, c⟩ := hd
    by_cases h : q = p
    · simp [diskErase, h, ih]
    · simp [diskErase, diskLookup, h, ih]

theorem diskLookup_erase_ne (d : Disk) (p q : String) (h : p ≠ q) :
    diskLookup (diskErase d q) p = diskLookup d p := by
  induction d with
  | nil => rfl
  | cons hd tl ih =>
    obtain ⟨r, c⟩ := hd
    by_cases hr : r = q
    · subst hr
      have hrp : ¬ r = p := fun hh => h hh.symm
      simp [diskErase, diskLookup, hrp, ih]
    · by_cases hp : r = p
      · subst hp
        simp [diskErase, diskLookup, hr]
      · simp [diskErase, diskLookup, hr, hp, ih]

theorem diskLookup_update_ne (d : Disk) (p q : String) (c : Content) (h : p ≠ q) :
    diskLookup (diskUpdate d q c) p = diskLookup d p := by
  induction d with
  | nil => rfl
  | cons hd tl ih =>
    obtain ⟨r, c0⟩ := hd
    by_cases hr : r = q
    · subst hr
      have hrp : ¬ r = p := fun hh => h hh.symm
      simp [diskUpdate, diskLookup, hrp, ih]
    · by_cases hp : r = p
      · subst hp
        simp [diskUpdate, diskLookup, hr]
      · simp [diskUpdate, diskLookup, hr, hp, ih]

theorem diskLookup_update_self (d : Disk) (p : String) (c c0 : Content)
    (h : diskLookup d p = some c0) :
    diskLookup (diskUpdate d p c) p = some c := by
  induction d with
  | nil => simp [diskLookup] at h
  | cons hd tl ih =>
    obtain ⟨r, c1⟩ := hd
    by_cases hr : r = p
    · simp [diskUpdate, diskLookup, hr]
    · simp [diskLookup, hr] at h
      simp [diskUpdate, diskLookup, hr, ih h]

/-! Characterization of the four reachable outcomes of one handler run. -/

theorem uploadHandler_readFail (st : ServerState) (fname : String) :
    uploadHandler st fname none =
      ⟨⟨st.currentFilePath, eraseCurrent st⟩, none, true⟩ := rfl

theorem uploadHandler_noMatch (st : ServerState) (fname : String) (c : Content)
    (h : c.firstBytes.take 3 ≠ id3Signature) :
    uploadHandler st fname (some c) =
      ⟨⟨st.currentFilePath, eraseCurrent st⟩, none, false⟩ := by
  simp [uploadHandler, checkMagicNumber, h]

theorem uploadHandler_success (st : ServerState) (fname : String) (c : Content)
    (hsig : c.firstBytes.take 3 = id3Signature) (hwf : c.wellFormed = true) :
    uploadHandler st fname (some c) =
      ⟨⟨some (uploadsPath fname),
          diskUpdate (eraseCurrent st) (uploadsPath fname) { c with hasTags := false }⟩,
        some (Response.okJson (publicPath fname)), false⟩ := by
  simp [uploadHandler, checkMagicNumber, parseMP3Metadata, hsig, hwf]

theorem uploadHandler_parseFail (st : ServerState) (fname : String) (c : Content)
    (hsig : c.firstBytes.take 3 = id3Signature) (hwf : c.wellFormed = false) :
    uploadHandler st fname (some c) =
      ⟨⟨st.currentFilePath, diskErase (eraseCurrent st) (uploadsPath fname)⟩,
        none, false⟩ := by
  simp [uploadHandler, checkMagicNumber, parseMP3Metadata, hsig, hwf]

/-- Server state in which a previously published file and a freshly staged
file with a wrong signature are both on disk. -/
def prevAndBadState : ServerState :=
  ⟨some (uploadsPath "old"),
   [(uploadsPath "old", goodContent), (uploadsPath "new", badSigContent)]⟩

/-- C1: the claim that the superseded file is deleted only after the new
upload has fully passed verification is FALSE on this code.  Concretely:
with a published file at uploads/old, uploading a file whose signature
check fails still deletes uploads/old (the handler deletes the previous
file at lines 74-76, before checkMagicNumber runs), even though the new
upload was never verified and no success response is produced. -/
theorem C1_eager_delete_cex :
    diskLookup (uploadHandler prevAndBadState "new" (some badSigContent)).state.disk
        (uploadsPath "old") = none ∧
    (uploadHandler prevAndBadState "new" (some badSigContent)).response = none := by
  decide

/-- C1 (amended): in every upload in which a previously published file
exists (under a path distinct from the staged path), that file is deleted
by the handler unconditionally — eagerly, before the signature check and
sanitization, whatever the verification outcome of the new upload. -/
theorem C1_amended_eager_deletion (st : ServerState) (fname : String)
    (read : Option Content) (p : String) (hp : st.currentFilePath = some p)
    (hne : p ≠ uploadsPath fname) :
    diskLookup (uploadHandler st fname read).state.disk p = none := by
  have herase : diskLookup (eraseCurrent st) p = none := by
    simp [eraseCurrent, hp, diskLookup_erase_self]
  cases read with
  | none =>
      rw [uploadHandler_readFail]
      exact herase
  | some c =>
      by_cases hsig : c.firstBytes.take 3 = id3Signature
      · cases hwf : c.wellFormed with
        | true =>
            rw [uploadHandler_success st fname c hsig hwf]
            rw [show (⟨⟨some (uploadsPath fname),
                diskUpdate (eraseCurrent st) (uploadsPath fname)
                  { c with hasTags := false }⟩,
                some (Response.okJson (publicPath fname)), false⟩ :
                HandlerResult).state.disk =
              diskUpdate (eraseCurrent st) (uploadsPath fname)
                { c with hasTags := false } from rfl]
            rw [diskLookup_update_ne _ _ _ _ hne]
            exact herase
        | false =>
            rw [uploadHandler_parseFail st fname c hsig hwf]
            rw [show (⟨⟨st.currentFilePath,
                diskErase (eraseCurrent st) (uploadsPath fname)⟩, none, false⟩ :
                HandlerResult).state.disk =
              diskErase (eraseCurrent st) (uploadsPath fname) from rfl]
            rw [diskLookup_erase_ne _ _ _ hne]
            exact herase
      · rw [uploadHandler_noMatch st fname c hsig]
        exact herase

/-- Witness for the amended C1 at a concrete input. -/
theorem C1_amended_witness :
    diskLookup (uploadHandler prevAndBadState "other" (some goodContent)).state.disk
        (uploadsPath "old") = none :=
  C1_amended_eager_deletion prevAndBadState "other" (some goodContent)
    (uploadsPath "old") rfl (by decide)

/-- Server state holding only a freshly staged file whose first 3 bytes are
00 00 00. -/
def stagedBadState : ServerState := ⟨none, [(uploadsPath "bad", badSigContent)]⟩

/-- C2: behaviour of the code at the failing input of the claim.  For a staged
file whose first 3 bytes differ from 49 44 33, the handler leaves the
staged file on disk, sends no response at all, and leaves the retention
slot unchanged: checkMagicNumber never invokes its continuation on a
mismatch, so the else branch at part_000 line 90 that would delete the
staged file is unreachable, and no res call ever runs.  The claim required
required deletion and rejection do not happen. -/
theorem C2_mismatch_behavior :
    uploadHandler stagedBadState "bad" (some badSigContent) =
      ⟨stagedBadState, none, false⟩ := by
  decide

/-- Server state with a previously published file and a staged well-formed
upload with a correct signature, under distinct paths. -/
def prevAndGoodState : ServerState :=
  ⟨some (uploadsPath "old"),
   [(uploadsPath "old", goodContent), (uploadsPath "g", goodContent)]⟩

/-- C3: for every fully successful upload (signature matches, metadata
parses, staged file on disk, previous path distinct from the staged path),
after the handler returns the retention slot holds exactly the new path,
the previously published file is gone from storage, the new file carries no
embedded tags, and the success response names the public path. -/
theorem C3_success_postconditions (st : ServerState) (fname : String) (c : Content)
    (hsig : c.firstBytes.take 3 = id3Signature) (hwf : c.wellFormed = true)
    (hstaged : diskLookup st.disk (uploadsPath fname) = some c)
    (hprev : ∀ p, st.currentFilePath = some p → p ≠ uploadsPath fname) :
    (uploadHandler st fname (some c)).state.currentFilePath =
        some (uploadsPath fname) ∧
    (∀ p, st.currentFilePath = some p →
        diskLookup (uploadHandler st fname (some c)).state.disk p = none) ∧
    diskLookup (uploadHandler st fname (some c)).state.disk (uploadsPath fname) =
        some { c with hasTags := false } ∧
    (uploadHandler st fname (some c)).response =
        some (Response.okJson (publicPath fname)) := by
  rw [uploadHandler_success st fname c hsig hwf]
  refine ⟨rfl, ?_, ?_, rfl⟩
  · intro p hp
    have hne := hprev p hp
    show diskLookup
        (diskUpdate (eraseCurrent st) (uploadsPath fname) { c with hasTags := false })
        p = none
    rw [diskLookup_update_ne _ _ _ _ hne]
    simp [eraseCurrent, hp, diskLookup_erase_self]
  · have hstay : diskLookup (eraseCurrent st) (uploadsPath fname) = some c := by
      cases hcur : st.currentFilePath with
      | none => simpa [eraseCurrent, hcur] using hstaged
      | some p =>
          have hne : uploadsPath fname ≠ p := (hprev p hcur).symm
          rw [show eraseCurrent st = diskErase st.disk p by simp [eraseCurrent, hcur]]
          rw [diskLookup_erase_ne _ _ _ hne]
          exact hstaged
    show diskLookup
        (diskUpdate (eraseCurrent st) (uploadsPath fname) { c with hasTags := false })
        (uploadsPath fname) = some { c with hasTags := false }
    exact diskLookup_update_self _ _ _ _ hstay

/-- Witness for C3 at a concrete input. -/
theorem C3_witness :
    (uploadHandler prevAndGoodState "g" (some goodContent)).state.currentFilePath =
        some (uploadsPath "g") ∧
    diskLookup (uploadHandler prevAndGoodState "g" (some goodContent)).state.disk
        (uploadsPath "old") = none ∧
    diskLookup (uploadHandler prevAndGoodState "g" (some goodContent)).state.disk
        (uploadsPath "g") = some { goodContent with hasTags := false } ∧
    (uploadHandler prevAndGoodState "g" (some goodContent)).response =
        some (Response.okJson (publicPath "g")) := by
  obtain ⟨h1, h2, h3, h4⟩ :=
    C3_success_postconditions prevAndGoodState "g" goodContent rfl rfl
      (by decide) (by intro p hp; injection hp with hp2; subst hp2; decide)
  exact ⟨h1, h2 _ rfl, h3, h4⟩

/-- Server state holding only a staged file that has a correct signature
but whose metadata stream does not parse. -/
def stagedCorruptState : ServerState := ⟨none, [(uploadsPath "c", corruptContent)]⟩

/-- C5: behaviour of the code at the failing input of the claim.  For a staged
file that passes the signature check but fails metadata parsing, the
staged file is deleted and the retention slot is unchanged, but no
rejection response is produced: parseMP3Metadata swallows the error without
invoking its continuation, so the res.status 500 branch at part_000 line 86
is unreachable and the handler sends nothing. -/
theorem C5_parse_fail_behavior :
    uploadHandler stagedCorruptState "c" (some corruptContent) =
      ⟨⟨none, []⟩, none, false⟩ := by
  decide

/-- An upload candidate whose declared name fails the restricted pattern
but whose declared MIME type is audio/mpeg. -/
def traversalUpload : MulterFile := ⟨"mp3file", "../../etc/passwd.mp3", "audio/mpeg", 50⟩

/-- C4: the claim that the authoritative server-side validator rejects
candidates with an invalid filename is FALSE on this code.  Concretely: the
name of traversalUpload fails the restricted pattern, yet the multer
fileFilter — the only server-side pre-staging check — accepts the
candidate, because it inspects nothing but the declared MIME type; the file
is then written to storage (under a generated name). -/
theorem C4_no_server_name_check_cex :
    regexNameMatches traversalUpload.originalname = false ∧
    fileFilter traversalUpload = true := by
  decide

/-- C4 (amended): the filename pattern and length check is enforced only by
the browser-side validateFile, which rejects every candidate whose name
fails the pattern or exceeds 70 characters; the server-side fileFilter is
insensitive to the filename, accepting or rejecting on the declared MIME
type alone. -/
theorem C4_amended_client_only (f g : MulterFile) (cf : ClientFile)
    (hmime : f.mimetype = g.mimetype)
    (hbad : regexNameMatches cf.name = false ∨ 70 < cf.name.length) :
    fileFilter f = fileFilter g ∧ validateFile cf = false := by
  constructor
  · simp [fileFilter, hmime]
  · unfold validateFile
    rcases hbad with hb | hb <;>
      split_ifs with h1 h2 h3 <;> first | rfl | (exfalso; simp [hb] at h3)

/-- Witness for the amended C4 at concrete inputs. -/
theorem C4_amended_witness :
    fileFilter traversalUpload = fileFilter ⟨"mp3file", "song.mp3", "audio/mpeg", 99⟩ ∧
    validateFile ⟨"../../etc/passwd.mp3", 50, "audio/mpeg"⟩ = false :=
  C4_amended_client_only traversalUpload ⟨"mp3file", "song.mp3", "audio/mpeg", 99⟩
    ⟨"../../etc/passwd.mp3", 50, "audio/mpeg"⟩ rfl (Or.inl (by decide))

/-- Server state holding one staged well-formed file. -/
def stagedGoodState : ServerState := ⟨none, [(uploadsPath "f", goodContent)]⟩

/-- C6: behaviour of the code at the failing input of the claim.  When the
asynchronous fs.readFile of the staged file reports an error, data is
undefined and data.toString throws inside the callback; the try/catch of
checkMagicNumber wraps only the synchronous call and cannot catch it
(part_001 even rethrows the error explicitly), so an exception crosses the
upload-pipeline boundary uncaught and no response is ever sent — the
recovery into a rejection response required by the claim does not happen. -/
theorem C6_uncaught_exception :
    (uploadHandler stagedGoodState "f" none).uncaughtExn = true ∧
    (uploadHandler stagedGoodState "f" none).response = none := by
  decide

/-- Size bound used by both size checks. -/
theorem validateFile_size_reject (cf : ClientFile) (h : 7000000 ≤ cf.size) :
    validateFile cf = false := by
  unfold validateFile
  split_ifs with h1 <;> rfl

/-- C7: the size gate accepts a candidate only when its declared byte size
is strictly below 7,000,000, and a candidate of exactly 7,000,000 bytes is
rejected.  The browser-side validateFile is embedded from source; the
server-side limit enforcement lives in the external multer dependency and
is modelled from the spec as multerSizeAccepts, with the ceiling constant
7000000 taken from part_000 line 64. -/
theorem C7_size_strict :
    (∀ cf : ClientFile, validateFile cf = true → cf.size < 7000000) ∧
    multerSizeAccepts 7000000 = false ∧
    (∀ cf : ClientFile, cf.size = 7000000 → validateFile cf = false) := by
  refine ⟨?_, rfl, ?_⟩
  · intro cf h
    by_contra hge
    push_neg at hge
    rw [validateFile_size_reject cf hge] at h
    exact absurd h (by simp)
  · intro cf he
    exact validateFile_size_reject cf (by omega)

/-- Witness for C7 at a concrete input. -/
theorem C7_size_witness :
    multerSizeAccepts 7000000 = false ∧
    validateFile ⟨"a.mp3", 7000000, "audio/mpeg"⟩ = false :=
  ⟨C7_size_strict.2.1, C7_size_strict.2.2 ⟨"a.mp3", 7000000, "audio/mpeg"⟩ rfl⟩

/-- C8: for any two upload candidates that differ only in the
client-supplied original filename (same field name, MIME type and size),
the generated stored filename is identical for the same timestamp and
random suffix — the stored name is built from the fixed field name, the
timestamp and the random integer, never from the client-supplied name. -/
theorem C8_stored_name_independent (f g : MulterFile) (now rand : Nat)
    (hfield : f.fieldname = g.fieldname) (hmime : f.mimetype = g.mimetype)
    (hsize : f.size = g.size) :
    storageFilename f now rand = storageFilename g now rand := by
  simp [storageFilename, hfield]

/-- Witness for C8 at concrete inputs. -/
theorem C8_witness :
    storageFilename ⟨"mp3file", "a.mp3", "audio/mpeg", 10⟩ 1700000000000 123456789 =
      storageFilename ⟨"mp3file", "b.mp3", "audio/mpeg", 10⟩ 1700000000000 123456789 :=
  C8_stored_name_independent ⟨"mp3file", "a.mp3", "audio/mpeg", 10⟩
    ⟨"mp3file", "b.mp3", "audio/mpeg", 10⟩ 1700000000000 123456789 rfl rfl rfl

/-- One request changes the slot only by publishing a path that passed both
checks. -/
theorem handleRequest_slot (st : ServerState) (r : Request) :
    (handleRequest st r).state.currentFilePath = st.currentFilePath ∨
    (r.readFails = false ∧ checksPass r.content ∧
      (handleRequest st r).state.currentFilePath = some (uploadsPath r.fname)) := by
  unfold handleRequest
  cases hrf : r.readFails with
  | true =>
      left
      rw [if_pos rfl, uploadHandler_readFail]
      rfl
  | false =>
      rw [if_neg (by simp)]
      by_cases hsig : r.content.firstBytes.take 3 = id3Signature
      · cases hwf : r.content.wellFormed with
        | true =>
            right
            refine ⟨rfl, ⟨hsig, hwf⟩, ?_⟩
            rw [uploadHandler_success _ _ _ hsig hwf]
        | false =>
            left
            rw [uploadHandler_parseFail _ _ _ hsig hwf]
            rfl
      · left
        rw [uploadHandler_noMatch _ _ _ hsig]
        rfl

/-- The slot after a run is either what it started as or a path published
by one of the requests that passed both checks. -/
theorem runServer_slot (reqs : List Request) (st : ServerState) :
    (runServer st reqs).currentFilePath = st.currentFilePath ∨
    ∃ r ∈ reqs, r.readFails = false ∧ checksPass r.content ∧
      (runServer st reqs).currentFilePath = some (uploadsPath r.fname) := by
  induction reqs generalizing st with
  | nil => exact Or.inl rfl
  | cons r rest ih =>
      rw [show runServer st (r :: rest) = runServer (handleRequest st r).state rest
        from rfl]
      rcases ih (handleRequest st r).state with h | ⟨q, hq, h1, h2, h3⟩
      · rcases handleRequest_slot st r with h0 | ⟨ha, hb, hc⟩
        · exact Or.inl (h.trans h0)
        · exact Or.inr ⟨r, List.mem_cons_self r rest, ha, hb, h.trans hc⟩
      · exact Or.inr ⟨q, List.mem_cons_of_mem r hq, h1, h2, h3⟩

/-- C9: the retention-slot variable currentFilePath starts as null and, at
every state reachable by a sequence of upload requests, is either null or
holds the uploads path of a request whose content passed both the
magic-number check and the metadata parse at the moment of assignment. -/
theorem C9_slot_invariant (reqs : List Request) :
    (runServer initialState reqs).currentFilePath = none ∨
    ∃ r ∈ reqs, r.readFails = false ∧ checksPass r.content ∧
      (runServer initialState reqs).currentFilePath = some (uploadsPath r.fname) := by
  rcases runServer_slot reqs initialState with h | h
  · exact Or.inl h
  · exact Or.inr h

/-- C10: checkMagicNumber invokes its continuation only with true and
exactly when the read succeeds and the first 3 bytes equal 49 44 33; on any
other leading bytes or on a read error, the continuation is never invoked,
and the upload handler consequently sends no HTTP response at all in those
cases. -/
theorem C10_callback_discipline :
    (∀ read : Option Content,
        checkMagicNumber read = MagicResult.invokedTrue ↔
          ∃ c, read = some c ∧ c.firstBytes.take 3 = id3Signature) ∧
    (∀ (st : ServerState) (fname : String) (c : Content),
        c.firstBytes.take 3 ≠ id3Signature →
        (uploadHandler st fname (some c)).response = none) ∧
    (∀ (st : ServerState) (fname : String),
        (uploadHandler st fname none).response = none) := by
  refine ⟨?_, ?_, ?_⟩
  · intro read
    constructor
    · intro h
      cases read with
      | none => simp [checkMagicNumber] at h
      | some c =>
          refine ⟨c, rfl, ?_⟩
          by_contra hs
          simp [checkMagicNumber, hs] at h
    · rintro ⟨c, rfl, hs⟩
      simp [checkMagicNumber, hs]
  · intro st fname c h
    rw [uploadHandler_noMatch st fname c h]
  · intro st fname
    rw [uploadHandler_readFail]

/-- Witness for C10 at concrete inputs. -/
theorem C10_witness :
    checkMagicNumber (some goodContent) = MagicResult.invokedTrue ∧
    (uploadHandler ⟨none, []⟩ "x" (some badSigContent)).response = none := by
  constructor
  · exact (C10_callback_discipline.1 (some goodContent)).2 ⟨goodContent, rfl, by decide⟩
  · exact C10_callback_discipline.2.1 ⟨none, []⟩ "x" badSigContent (by decide)

end MusicPlayer
